import Mathlib

/-!
# Verification of the marild market-data service

Shallow embedding of the Python sources under `supabase/functions/`:
the shared cache manager (`_shared/yf_cache.py`), the shared normalizer
(`_shared/yf_normalizer.py`), and the request handlers
(`get_stock/index.py`, `get_multiple_stocks/index.py`, `get_indices/index.py`).

Modelling conventions:
* Python strings are Lean `String`s; `str.upper()` is modelled per code point
  by `pyUpper` (ASCII uppercasing, `Char.toUpper` on each character).
* Timestamps are integers (seconds).  The Python code stores `expires_at` as
  an ISO-8601 UTC string and compares parsed datetimes; since ISO-8601 UTC
  order agrees with chronological order, integer comparison is a faithful
  model of every comparison the code performs.
* Numeric JSON values are rationals (`ℚ`); a field of the provider record is
  `Option ℚ`, where `none` stands for an absent (or JSON-null) key.
* The persistent `market_cache` table is a list of rows `(id, data, expires_at)`;
  the Supabase operations used by the code (select-by-id with `maybe_single`,
  upsert-by-id, delete-by-id, delete-by-like-pattern, delete-where-less-than)
  are given directly as list operations.
* Every storage call can fault (the Python code wraps each in
  `try`/`except`); each cache-manager operation therefore takes explicit
  Boolean fault flags, one per storage call it performs.  `fault = true`
  plays the role of the storage layer raising an arbitrary exception at that
  call.  The handler layer is modelled with fault-free storage.
* The effects a handler has on the outside world (cache reads, cache writes,
  provider fetches) are recorded in an explicit effect trace so that
  "no cache or provider access happened" is expressible.
-/

/-- Python `str.upper()`, per code point (ASCII letters). -/
def pyUpper (s : String) : String := ⟨s.data.map Char.toUpper⟩

/-! ## Normalizer (`_shared/yf_normalizer.py`) -/

/-- The permitted characters of `validate_ticker_symbol`
(line 158: `set("ABCDEFGHIJKLMNOPQRSTUVWXYZ0123456789-._^")`). -/
def allowed_chars : List Char := "ABCDEFGHIJKLMNOPQRSTUVWXYZ0123456789-._^".data

/-- Model of `YFinanceNormalizer.validate_ticker_symbol` (lines 144-159):
empty or over-long strings are rejected, then every character of the
uppercased symbol must lie in `allowed_chars`. -/
def validate_ticker_symbol (ticker : String) : Bool :=
  if ticker.length = 0 ∨ ticker.length > 10 then false
  else (pyUpper ticker).data.all (fun c => allowed_chars.contains c)

/-- Round half to even (Python 3 `round` on exact values). -/
def roundHalfEven (q : ℚ) : ℤ :=
  let f : ℤ := ⌊q⌋
  let r : ℚ := q - f
  if r < 1/2 then f
  else if 1/2 < r then f + 1
  else if 2 ∣ f then f else f + 1

/-- Python `round(x, 2)` on exact values. -/
def round2 (q : ℚ) : ℚ := (roundHalfEven (q * 100) : ℚ) / 100

/-- Python `a or b` for a possibly-absent numeric `a` (numeric truthiness:
`None` and `0` are falsy). -/
def pyOrNum (a : Option ℚ) (b : ℚ) : ℚ :=
  match a with
  | some v => if v = 0 then b else v
  | none => b

/-- Line 38, `current_price = info.get("regularMarketPrice") or info.get("currentPrice", 0)`
(`normalize_ticker_data`, line 38). -/
def current_price_of (regularMarketPrice currentPrice : Option ℚ) : ℚ :=
  pyOrNum regularMarketPrice (currentPrice.getD 0)

/-- Line 39, `previous_close = info.get("previousClose", current_price)`
(`normalize_ticker_data`, line 39). -/
def previous_close_of (previousClose : Option ℚ) (current_price : ℚ) : ℚ :=
  previousClose.getD current_price

/-- The `change_percent` computation of `normalize_ticker_data`
(lines 41-44 guard and formula, line 56 rounding): zero unless
`previous_close` is truthy and positive, otherwise the relative change
times 100, rounded to two decimals. -/
def change_percent_of (regularMarketPrice currentPrice previousClose : Option ℚ) : ℚ :=
  let current_price := current_price_of regularMarketPrice currentPrice
  let previous_close := previous_close_of previousClose current_price
  if previous_close ≠ 0 ∧ 0 < previous_close then
    round2 (((current_price - previous_close) / previous_close) * 100)
  else
    round2 0

/-! ## Cache manager (`_shared/yf_cache.py`) -/

/-- Constant `YFinanceCacheManager.CACHE_DURATION_HIGH_VOLUME` (line 17). -/
def CACHE_DURATION_HIGH_VOLUME : Int := 300

/-- Constant `YFinanceCacheManager.CACHE_DURATION_NORMAL` (line 18). -/
def CACHE_DURATION_NORMAL : Int := 600

/-- Constant `YFinanceCacheManager.HIGH_VOLUME_TICKERS` (lines 21-24). -/
def HIGH_VOLUME_TICKERS : List String :=
  ["AAPL", "MSFT", "GOOGL", "AMZN", "META", "TSLA", "NVDA",
   "BTC-USD", "ETH-USD", "^GSPC", "^IXIC", "^DJI"]

/-- Model of `YFinanceCacheManager.get_cache_key` (lines 35-47):
`f"yf:{ticker.upper()}:{range_period}:{interval}"`. -/
def get_cache_key (ticker range_period interval : String) : String :=
  "yf:" ++ pyUpper ticker ++ ":" ++ range_period ++ ":" ++ interval

/-- Model of `YFinanceCacheManager.get_cache_duration` (lines 49-61). -/
def get_cache_duration (ticker : String) : Int :=
  if HIGH_VOLUME_TICKERS.contains (pyUpper ticker) then CACHE_DURATION_HIGH_VOLUME
  else CACHE_DURATION_NORMAL

/-- One row of the `market_cache` table. -/
structure CacheRow (α : Type) where
  id : String
  data : α
  expires_at : Int
deriving DecidableEq

/-- The `market_cache` table. -/
abbrev Table (α : Type) : Type := List (CacheRow α)

/-- Storage point lookup, `select(...).eq("id", key).maybe_single()`: the row with the given id,
if any. -/
def selectById {α : Type} (tbl : Table α) (key : String) : Option (CacheRow α) :=
  List.find? (fun r => r.id == key) tbl

/-- Storage delete by id, `delete().eq("id", key)`. -/
def deleteById {α : Type} (tbl : Table α) (key : String) : Table α :=
  List.filter (fun r => r.id != key) tbl

/-- Storage upsert by id: replace any row with
this id. -/
def upsertById {α : Type} (tbl : Table α) (key : String) (d : α) (exp : Int) : Table α :=
  deleteById tbl key ++ [⟨key, d, exp⟩]

/-- Model of `YFinanceCacheManager.delete_cache` (lines 137-152): `True` on success,
`False` when the storage call faults (exception caught). -/
def delete_cache {α : Type} (fault : Bool) (tbl : Table α) (cache_key : String) :
    Bool × Table α :=
  if fault then (false, tbl)
  else (true, deleteById tbl cache_key)

/-- Model of `YFinanceCacheManager.get_cached_data` (lines 63-102).  `selFault` makes
the select call raise (caught: result `None`); `delFault` makes the delete
inside the expired branch raise (absorbed inside `delete_cache`). -/
def get_cached_data {α : Type} (selFault delFault : Bool) (now : Int) (tbl : Table α)
    (ticker range_period interval : String) : Option α × Table α :=
  if selFault then (none, tbl)
  else
    let cache_key := get_cache_key ticker range_period interval
    match selectById tbl cache_key with
    | none => (none, tbl)
    | some row =>
        if row.expires_at < now then
          (none, (delete_cache delFault tbl cache_key).2)
        else
          (some row.data, tbl)

/-- Model of `YFinanceCacheManager.set_cached_data` (lines 104-135). -/
def set_cached_data {α : Type} (fault : Bool) (now : Int) (tbl : Table α)
    (ticker : String) (data : α) (range_period interval : String) : Bool × Table α :=
  if fault then (false, tbl)
  else
    let cache_key := get_cache_key ticker range_period interval
    let cache_duration := get_cache_duration ticker
    (true, upsertById tbl cache_key data (now + cache_duration))

/-- Model of `YFinanceCacheManager.invalidate_ticker_cache` (lines 154-175):
`delete().like("id", f"yf:{ticker.upper()}:%")`, returning the number of
deleted rows, `0` on a storage fault. -/
def invalidate_ticker_cache {α : Type} (fault : Bool) (tbl : Table α)
    (ticker : String) : Nat × Table α :=
  if fault then (0, tbl)
  else
    let pat := "yf:" ++ pyUpper ticker ++ ":"
    ((List.filter (fun r => r.id.startsWith pat) tbl).length,
     List.filter (fun r => !(r.id.startsWith pat)) tbl)

/-- Model of `YFinanceCacheManager.cleanup_expired_cache` (lines 177-195):
`delete().lt("expires_at", now)`, returning the number of deleted rows,
`0` on a storage fault. -/
def cleanup_expired_cache {α : Type} (fault : Bool) (now : Int) (tbl : Table α) :
    Nat × Table α :=
  if fault then (0, tbl)
  else
    ((List.filter (fun r => decide (r.expires_at < now)) tbl).length,
     List.filter (fun r => !(decide (r.expires_at < now))) tbl)

/-! ## Normalized payloads and the provider, as seen by the handlers

The handlers treat the output of the normalizer as a JSON object.  The model keeps
the keys the handlers inspect or add: `ticker`, the optional `error` key
(present exactly on the error variant of the normalizer), the numeric fields of
the error variant, and the optional `asset_type` / `cached` keys the handlers
attach.  A normalized payload is always a non-empty object, so the Python
dict-truthiness test `if cached_data:` coincides with presence. -/

structure NormData where
  ticker : String
  error : Option String
  price : ℚ
  change_percent : ℚ
  asset_type : Option String
  cached : Option Bool
deriving DecidableEq

/-- Outcome of `yf.Ticker(t)` followed by `normalize_ticker_data`: either the
normalized payload (the normalizer is total, so this includes its error
variant), or an exception escaping the fetch (caught by the handler). -/
inductive FetchOutcome where
  | ok (d : NormData)
  | raise (msg : String)

/-- The provider: what fetching a given symbol yields. -/
abbrev Provider := String → FetchOutcome

/-- Externally visible effects of a handler run. -/
inductive Eff where
  | cacheRead (key : String)
  | cacheWrite (key : String)
  | providerFetch (ticker : String)
deriving DecidableEq

/-! ## Batch handler (`get_multiple_stocks/index.py`) -/

/-- The JSON value found at `"tickers"` in the request body: absent, a
string, a list of strings, or some other (truthy) JSON value. -/
inductive TickersVal where
  | absent
  | str (s : String)
  | list (l : List String)
  | other

/-- Python truthiness of the `tickers` value (`if not tickers`, line 25):
absent, the empty string and the empty list are falsy. -/
def tickersFalsy : TickersVal → Bool
  | .absent => true
  | .str s => s == ""
  | .list l => l.isEmpty
  | .other => false

/-- The ticker list `validate_request` works on (lines 29-34): a
comma-separated string is split and stripped, a list is taken as is;
anything else has no ticker list. -/
def ticker_list_of : TickersVal → Option (List String)
  | .str s => some ((s.splitOn ",").map String.trim)
  | .list l => some l
  | .absent => none
  | .other => none

/-- Request body of `get_multiple_stocks` (the `include_history` flag is
passed through to the provider fetch and does not affect anything the model
tracks). -/
structure GmsBody where
  tickers : TickersVal
  range : Option String
  interval : Option String

/-- Model of `validate_request` of `get_multiple_stocks/index.py` (lines 22-44). -/
def validate_request (body : GmsBody) : Bool × String :=
  if tickersFalsy body.tickers then
    (false, "Missing required parameter: tickers")
  else
    match ticker_list_of body.tickers with
    | none => (false, "tickers must be a comma-separated string or list")
    | some ticker_list =>
        if ticker_list.length > 50 then
          (false, "Maximum 50 tickers per request")
        else
          match List.find? (fun t => !(validate_ticker_symbol t)) ticker_list with
          | some t => (false, "Invalid ticker symbol: " ++ t)
          | none => (true, "")

/-- The uppercased ticker list used by the handler after validation
(lines 63-67). -/
def gms_ticker_list : TickersVal → List String
  | .str s => (s.splitOn ",").map (fun t => pyUpper t.trim)
  | .list l => l.map pyUpper
  | .absent => []
  | .other => []

/-- Result of the cache-check loop (lines 86-92). -/
structure CacheLoopOut where
  results : List NormData
  to_fetch : List String
  tbl : Table NormData
  effs : List Eff
deriving DecidableEq

/-- The cache-check loop of the batch handler (lines 86-92): a hit is marked
`cached: true` and collected, a miss queues the ticker for fetching. -/
def gms_cache_loop (now : Int) (r i : String) :
    List String → Table NormData → CacheLoopOut
  | [], tbl => ⟨[], [], tbl, []⟩
  | t :: rest, tbl =>
      let g := get_cached_data false false now tbl t r i
      let out := gms_cache_loop now r i rest g.2
      match g.1 with
      | some d =>
          ⟨{ d with cached := some true } :: out.results, out.to_fetch, out.tbl,
           .cacheRead (get_cache_key t r i) :: out.effs⟩
      | none =>
          ⟨out.results, t :: out.to_fetch, out.tbl,
           .cacheRead (get_cache_key t r i) :: out.effs⟩

/-- One iteration of the fetch loop of the batch handler (lines 97-119):
a successful fetch is marked `cached: false`, written to the cache
("even if error"), and collected; an exception during the fetch is caught
and turned into a per-item error entry, with no cache write. -/
def gms_fetch_one (now : Int) (provider : Provider) (tbl : Table NormData)
    (t r i : String) : NormData × Table NormData × List Eff :=
  match provider t with
  | .raise m =>
      (⟨t, some ("Failed to fetch: " ++ m), 0, 0, none, none⟩, tbl,
       [.providerFetch t])
  | .ok d =>
      let normalized_data := { d with cached := some false }
      let s := set_cached_data false now tbl t normalized_data r i
      (normalized_data, s.2, [.providerFetch t, .cacheWrite (get_cache_key t r i)])

/-- The fetch loop of the batch handler (lines 95-119). -/
def gms_fetch_loop (now : Int) (provider : Provider) (r i : String) :
    List String → Table NormData → List NormData × Table NormData × List Eff
  | [], tbl => ([], tbl, [])
  | t :: rest, tbl =>
      let one := gms_fetch_one now provider tbl t r i
      let out := gms_fetch_loop now provider r i rest one.2.1
      (one.1 :: out.1, out.2.1, one.2.2 ++ out.2.2)

/-- Response of a batch handler, with the fields of the JSON body
(lines 122-131; on a 400, line 56-60, only `error` is set). -/
structure BatchResp where
  statusCode : Nat
  error : Option String
  data : List NormData
  total : Nat
  cachedCount : Nat
  fetchedCount : Nat
deriving DecidableEq

/-- Model of `handler` of `get_multiple_stocks/index.py` (lines 47-138), with the
effect trace of its cache and provider accesses. -/
def gms_handler (now : Int) (provider : Provider) (body : GmsBody)
    (tbl : Table NormData) : BatchResp × Table NormData × List Eff :=
  let v := validate_request body
  if v.1 then
    let ticker_list := gms_ticker_list body.tickers
    let range_period := body.range.getD "1d"
    let interval := body.interval.getD "1d"
    let c := gms_cache_loop now range_period interval ticker_list tbl
    let f := gms_fetch_loop now provider range_period interval c.to_fetch c.tbl
    let results := c.results ++ f.1
    (⟨200, none, results, results.length, results.length - c.to_fetch.length,
      c.to_fetch.length⟩, f.2.1, c.effs ++ f.2.2)
  else
    (⟨400, some v.2, [], 0, 0, 0⟩, tbl, [])

/-! ## Single-stock handler (`get_stock/index.py`) -/

/-- Request body of `get_stock`. -/
structure GsBody where
  ticker : Option String
  range : Option String
  interval : Option String

/-- Model of `validate_request` of `get_stock/index.py` (lines 22-31); an absent or
empty (falsy) ticker is "missing". -/
def gs_validate_request (body : GsBody) : Bool × String :=
  match body.ticker with
  | none => (false, "Missing required parameter: ticker")
  | some t =>
      if t == "" then (false, "Missing required parameter: ticker")
      else if validate_ticker_symbol t then (true, "")
      else (false, "Invalid ticker symbol: " ++ t)

/-- Response of the single-stock handler: a status code and either an error
message or a payload body. -/
structure GsResp where
  statusCode : Nat
  error : Option String
  body : Option NormData
deriving DecidableEq

/-- Model of `handler` of `get_stock/index.py` (lines 34-105): cache hit returns the
payload marked `cached: true`; on a miss, a fetched payload carrying an
`error` key is returned as a 404 without being cached, otherwise it is
marked `cached: false`, cached and returned; an exception from the fetch is
caught by the outer handler and becomes a 500. -/
def gs_handler (now : Int) (provider : Provider) (body : GsBody)
    (tbl : Table NormData) : GsResp × Table NormData × List Eff :=
  let v := gs_validate_request body
  if v.1 then
    let ticker := pyUpper (body.ticker.getD "")
    let range_period := body.range.getD "1mo"
    let interval := body.interval.getD "1d"
    let key := get_cache_key ticker range_period interval
    let g := get_cached_data false false now tbl ticker range_period interval
    match g.1 with
    | some d =>
        (⟨200, none, some { d with cached := some true }⟩, g.2, [.cacheRead key])
    | none =>
        match provider ticker with
        | .raise m =>
            (⟨500, some ("Internal server error: " ++ m), none⟩, g.2,
             [.cacheRead key, .providerFetch ticker])
        | .ok d =>
            if d.error.isSome then
              (⟨404, none, some d⟩, g.2, [.cacheRead key, .providerFetch ticker])
            else
              let normalized_data := { d with cached := some false }
              let s := set_cached_data false now g.2 ticker normalized_data
                range_period interval
              (⟨200, none, some normalized_data⟩, s.2,
               [.cacheRead key, .providerFetch ticker, .cacheWrite key])
  else
    (⟨400, some v.2, none⟩, tbl, [])

/-! ## Indices handler (`get_indices/index.py`) -/

/-- Constant `MAJOR_INDICES` of `get_indices/index.py` (lines 23-34). -/
def MAJOR_INDICES : List (String × String) :=
  [("SP500", "^GSPC"), ("NASDAQ", "^IXIC"), ("DOW", "^DJI"),
   ("FTSE", "^FTSE"), ("DAX", "^GDAXI"), ("NIKKEI", "^N225"),
   ("HANGSENG", "^HSI"), ("CAC40", "^FCHI"), ("SENSEX", "^BSESN"),
   ("ASX200", "^AXJO")]

/-- The value found at `"indices"` (or `"index"`) in the request body. -/
inductive IdxVal where
  | absent
  | str (s : String)
  | list (l : List String)

/-- Python truthiness of the indices value (line 42). -/
def idxFalsy : IdxVal → Bool
  | .absent => true
  | .str s => s == ""
  | .list l => l.isEmpty

/-- The per-index resolution loop of `validate_request` (lines 51-62): a
known name maps to its Yahoo ticker, a `^`-leading ticker is uppercased and
kept, anything else fails the whole request. -/
def idx_resolve : List String → Except String (List String)
  | [] => .ok []
  | index :: rest =>
      let index_upper := pyUpper index
      match List.find? (fun p => p.1 == index_upper) MAJOR_INDICES with
      | some p => (idx_resolve rest).map (fun l => p.2 :: l)
      | none =>
          if index.startsWith "^" then
            (idx_resolve rest).map (fun l => pyUpper index :: l)
          else
            .error ("Unknown index: " ++ index)

/-- Model of `validate_request` of `get_indices/index.py` (lines 37-64): a falsy
indices value selects all major indices; otherwise each requested index is
resolved, failing on the first unknown one. -/
def idx_validate_request (indices : IdxVal) : Except String (List String) :=
  if idxFalsy indices then .ok (MAJOR_INDICES.map Prod.snd)
  else
    match indices with
    | .str s => idx_resolve [s]
    | .list l => idx_resolve l
    | .absent => idx_resolve []

/-- Request body of `get_indices` (the two body keys `indices` and `index`
are read with `or`, collapsed here into one value). -/
structure IdxBody where
  indices : IdxVal
  range : Option String
  interval : Option String

/-- The cache-check loop of the indices handler (lines 103-110): as in the
batch handler, but hits are also marked `asset_type: "index"`. -/
def idx_cache_loop (now : Int) (r i : String) :
    List String → Table NormData → CacheLoopOut
  | [], tbl => ⟨[], [], tbl, []⟩
  | t :: rest, tbl =>
      let g := get_cached_data false false now tbl t r i
      let out := idx_cache_loop now r i rest g.2
      match g.1 with
      | some d =>
          ⟨{ d with cached := some true, asset_type := some "index" } :: out.results,
           out.to_fetch, out.tbl, .cacheRead (get_cache_key t r i) :: out.effs⟩
      | none =>
          ⟨out.results, t :: out.to_fetch, out.tbl,
           .cacheRead (get_cache_key t r i) :: out.effs⟩

/-- One iteration of the fetch loop of the indices handler (lines 114-140):
a successful fetch is marked `cached: false` and `asset_type: "index"`,
cached and collected; an exception is caught and becomes a per-item error
entry carrying `asset_type: "index"`, with no cache write. -/
def idx_fetch_one (now : Int) (provider : Provider) (tbl : Table NormData)
    (t r i : String) : NormData × Table NormData × List Eff :=
  match provider t with
  | .raise m =>
      (⟨t, some ("Failed to fetch: " ++ m), 0, 0, some "index", none⟩, tbl,
       [.providerFetch t])
  | .ok d =>
      let normalized_data := { d with cached := some false, asset_type := some "index" }
      let s := set_cached_data false now tbl t normalized_data r i
      (normalized_data, s.2, [.providerFetch t, .cacheWrite (get_cache_key t r i)])

/-- The fetch loop of the indices handler (lines 113-140). -/
def idx_fetch_loop (now : Int) (provider : Provider) (r i : String) :
    List String → Table NormData → List NormData × Table NormData × List Eff
  | [], tbl => ([], tbl, [])
  | t :: rest, tbl =>
      let one := idx_fetch_one now provider tbl t r i
      let out := idx_fetch_loop now provider r i rest one.2.1
      (one.1 :: out.1, out.2.1, one.2.2 ++ out.2.2)

/-- Model of `handler` of `get_indices/index.py` (lines 67-159). -/
def idx_handler (now : Int) (provider : Provider) (body : IdxBody)
    (tbl : Table NormData) : BatchResp × Table NormData × List Eff :=
  match idx_validate_request body.indices with
  | .error msg => (⟨400, some msg, [], 0, 0, 0⟩, tbl, [])
  | .ok ticker_list =>
      let range_period := body.range.getD "1d"
      let interval := body.interval.getD "1d"
      let c := idx_cache_loop now range_period interval ticker_list tbl
      let f := idx_fetch_loop now provider range_period interval c.to_fetch c.tbl
      let results := c.results ++ f.1
      (⟨200, none, results, results.length, results.length - c.to_fetch.length,
        c.to_fetch.length⟩, f.2.1, c.effs ++ f.2.2)

/-! ## Helper lemmas about the table operations -/

theorem selectById_deleteById {α : Type} (tbl : Table α) (key : String) :
    selectById (deleteById tbl key) key = none := by
  unfold selectById deleteById
  rw [List.find?_eq_none]
  intro r hr
  rw [List.mem_filter] at hr
  simpa using hr.2

theorem selectById_upsertById {α : Type} (tbl : Table α) (key : String) (d : α) (exp : Int) :
    selectById (upsertById tbl key d exp) key = some ⟨key, d, exp⟩ := by
  unfold upsertById
  have h1 : selectById (deleteById tbl key) key = none := selectById_deleteById tbl key
  unfold selectById at h1 ⊢
  rw [List.find?_append, h1]
  simp [List.find?]

/-! ## Claims about the cache manager -/

/-- C1: `get_cached_data` looks up the derived key and returns `none` when no
row exists; when a row exists whose `expires_at` is in the past it deletes
the row (a subsequent direct lookup finds nothing) and returns `none`;
otherwise it returns the stored payload with the table unmodified (no TTL
refresh on read). -/
theorem get_cached_data_read_semantics {α : Type} (now : Int) (tbl : Table α)
    (t r i : String) :
    (selectById tbl (get_cache_key t r i) = none →
      get_cached_data false false now tbl t r i = (none, tbl)) ∧
    (∀ row : CacheRow α, selectById tbl (get_cache_key t r i) = some row →
      row.expires_at < now →
      get_cached_data false false now tbl t r i =
        (none, deleteById tbl (get_cache_key t r i)) ∧
      selectById (get_cached_data false false now tbl t r i).2
        (get_cache_key t r i) = none) ∧
    (∀ row : CacheRow α, selectById tbl (get_cache_key t r i) = some row →
      ¬ row.expires_at < now →
      get_cached_data false false now tbl t r i = (some row.data, tbl)) := by
  refine ⟨?_, ?_, ?_⟩
  · intro h
    simp [get_cached_data, h]
  · intro row hrow hexp
    refine ⟨?_, ?_⟩
    · simp [get_cached_data, hrow, hexp, delete_cache]
    · simp [get_cached_data, hrow, hexp, delete_cache, selectById_deleteById]
  · intro row hrow hexp
    simp [get_cached_data, hrow, hexp]

theorem get_cached_data_read_semantics_witness :
    get_cached_data false false 0 ([] : Table Nat) "AAPL" "1d" "1d" = (none, []) ∧
    (get_cached_data false false 200 [(⟨"yf:AAPL:1d:1d", 7, 100⟩ : CacheRow Nat)]
        "AAPL" "1d" "1d" =
      (none, deleteById [⟨"yf:AAPL:1d:1d", 7, 100⟩] (get_cache_key "AAPL" "1d" "1d")) ∧
     selectById (get_cached_data false false 200
        [(⟨"yf:AAPL:1d:1d", 7, 100⟩ : CacheRow Nat)] "AAPL" "1d" "1d").2
        (get_cache_key "AAPL" "1d" "1d") = none) ∧
    get_cached_data false false 50 [(⟨"yf:AAPL:1d:1d", 7, 100⟩ : CacheRow Nat)]
        "AAPL" "1d" "1d" =
      (some 7, [⟨"yf:AAPL:1d:1d", 7, 100⟩]) :=
  ⟨(get_cached_data_read_semantics 0 [] "AAPL" "1d" "1d").1 (by decide),
   (get_cached_data_read_semantics 200 _ "AAPL" "1d" "1d").2.1
     ⟨"yf:AAPL:1d:1d", 7, 100⟩ (by decide) (by decide),
   (get_cached_data_read_semantics 50 _ "AAPL" "1d" "1d").2.2
     ⟨"yf:AAPL:1d:1d", 7, 100⟩ (by decide) (by decide)⟩

/-- C2: a fault at any storage call is absorbed inside the cache manager and
converted to the sentinel result: `none` for a read (whether the select
faults, or the lazy delete of an expired row faults), `false` for a write or
delete, `0` for invalidation and cleanup; the table the faulting call could
not touch is left as it was, and no fault propagates (the operations are
total functions). -/
theorem cache_ops_absorb_storage_faults {α : Type} (now : Int) (tbl : Table α)
    (t r i k : String) (d : α) (delFault : Bool) :
    get_cached_data true delFault now tbl t r i = (none, tbl) ∧
    get_cached_data false true now tbl t r i =
      ((get_cached_data false false now tbl t r i).1, tbl) ∧
    set_cached_data true now tbl t d r i = (false, tbl) ∧
    delete_cache true tbl k = (false, tbl) ∧
    invalidate_ticker_cache true tbl t = (0, tbl) ∧
    cleanup_expired_cache true now tbl = (0, tbl) := by
  refine ⟨rfl, ?_, rfl, rfl, rfl, rfl⟩
  unfold get_cached_data
  cases hrow : selectById tbl (get_cache_key t r i) with
  | none => simp [hrow]
  | some row =>
      by_cases hexp : row.expires_at < now
      · simp [hrow, hexp, delete_cache]
      · simp [hrow, hexp]

/-- C3: writing a payload and immediately reading it back under the same
symbol, range and interval, at any instant not past the computed expiry,
returns exactly the stored payload. -/
theorem set_then_get_roundtrip {α : Type} (now now2 : Int) (tbl : Table α)
    (t r i : String) (payload : α)
    (h : ¬ (now + get_cache_duration t < now2)) :
    (get_cached_data false false now2
      (set_cached_data false now tbl t payload r i).2 t r i).1 = some payload := by
  have hsel := selectById_upsertById tbl (get_cache_key t r i) payload
    (now + get_cache_duration t)
  simp [get_cached_data, set_cached_data, hsel, h]

theorem set_then_get_roundtrip_witness :
    (get_cached_data false false 0
      (set_cached_data false 0 ([] : Table Nat) "AAPL" 7 "1d" "1d").2
      "AAPL" "1d" "1d").1 = some 7 :=
  set_then_get_roundtrip 0 0 [] "AAPL" "1d" "1d" 7 (by decide)

/-! ## Claims about the normalizer -/

/-- The validity predicate in the words of the claim: strings of length 1 to
10 composed only of uppercase letters, digits, hyphen, period, and caret. -/
def claimed_valid_symbol (s : String) : Bool :=
  1 ≤ s.length && s.length ≤ 10 &&
    s.data.all (fun c => ("ABCDEFGHIJKLMNOPQRSTUVWXYZ0123456789-.^".data).contains c)

/-- C4 counterexample: `validate_ticker_symbol` accepts `"a_"`, a string the
characterization of the claim rejects (it contains a lowercase letter and an
underscore, neither of which is an uppercase letter, digit, hyphen, period
or caret). -/
theorem validate_ticker_symbol_claim_counterexample :
    validate_ticker_symbol "a_" = true ∧ claimed_valid_symbol "a_" = false := by
  decide

/-- The validity predicate the code actually decides: length 1 to 10, and
every character uppercases (per ASCII code point) into the set of uppercase
letters, digits, hyphen, period, underscore, and caret. -/
def amended_valid_symbol (s : String) : Bool :=
  1 ≤ s.length && s.length ≤ 10 &&
    s.data.all (fun c => allowed_chars.contains c.toUpper)

/-- C4 (amended): `validate_ticker_symbol` returns true exactly for strings
of length 1 to 10 each of whose characters uppercases into the set of
uppercase letters, digits, hyphen, period, underscore, and caret (so it is
case-insensitive and also allows underscore); in particular it accepts
`"BRK.B"` and rejects `""` and `"TOOLONGTICKER123"`. -/
theorem validate_ticker_symbol_amended :
    (∀ s : String, validate_ticker_symbol s = amended_valid_symbol s) ∧
    validate_ticker_symbol "BRK.B" = true ∧
    validate_ticker_symbol "" = false ∧
    validate_ticker_symbol "TOOLONGTICKER123" = false := by
  refine ⟨?_, by decide, by decide, by decide⟩
  intro s
  unfold validate_ticker_symbol amended_valid_symbol pyUpper
  rcases s with ⟨l⟩
  simp only [String.length]
  by_cases h0 : l.length = 0
  · simp [h0]
  · by_cases h10 : l.length > 10
    · simp [h10]
    · have h1 : 1 ≤ l.length := Nat.one_le_iff_ne_zero.mpr h0
      have h2 : l.length ≤ 10 := Nat.not_lt.mp h10
      simp [h0, h10, h1, h2, List.all_map]
      rfl

/-- C5: `get_cache_duration` returns the short TTL of 300 seconds exactly
when the uppercased symbol is in the static high-volume allow-list, and the
long TTL of 600 seconds for every other symbol. -/
theorem get_cache_duration_two_tier (t : String) :
    (HIGH_VOLUME_TICKERS.contains (pyUpper t) = true → get_cache_duration t = 300) ∧
    (HIGH_VOLUME_TICKERS.contains (pyUpper t) = false → get_cache_duration t = 600) := by
  refine ⟨fun h => ?_, fun h => ?_⟩ <;>
    · unfold get_cache_duration
      rw [h]
      rfl

theorem get_cache_duration_two_tier_witness :
    get_cache_duration "AAPL" = 300 ∧
    get_cache_duration "BTC-USD" = 300 ∧
    get_cache_duration "IBM" = 600 :=
  ⟨(get_cache_duration_two_tier "AAPL").1 (by decide),
   (get_cache_duration_two_tier "BTC-USD").1 (by decide),
   (get_cache_duration_two_tier "IBM").2 (by decide)⟩

/-- C6: `get_cache_key` is the pure function producing
`"yf:" ++ <SYMBOL UPPERCASED> ++ ":" ++ <range> ++ ":" ++ <interval>`;
consequently two calls whose symbols agree up to case (and whose range and
interval agree) always yield equal keys. -/
theorem get_cache_key_pure_format (t r i : String) :
    get_cache_key t r i = "yf:" ++ pyUpper t ++ ":" ++ r ++ ":" ++ i ∧
    (∀ t2 r2 i2 : String, pyUpper t = pyUpper t2 → r = r2 → i = i2 →
      get_cache_key t r i = get_cache_key t2 r2 i2) := by
  refine ⟨rfl, ?_⟩
  intro t2 r2 i2 ht hr hi
  simp [get_cache_key, ht, hr, hi]

theorem get_cache_key_pure_format_witness :
    get_cache_key "aapl" "1d" "1d" = get_cache_key "AAPL" "1d" "1d" :=
  (get_cache_key_pure_format "aapl" "1d" "1d").2 "AAPL" "1d" "1d" (by decide) rfl rfl

/-- C7: the normalizer computes `change_percent` as
`((current - previous_close) / previous_close) * 100`, rounded to two
decimals, whenever `previous_close > 0`, and as `0` otherwise; in
particular `previous_close = 0` produces `0` with no division-by-zero fault
(the operation is a total function). -/
theorem change_percent_guarded (rmp cp pc : Option ℚ) :
    (0 < previous_close_of pc (current_price_of rmp cp) →
      change_percent_of rmp cp pc =
        round2 (((current_price_of rmp cp -
            previous_close_of pc (current_price_of rmp cp)) /
          previous_close_of pc (current_price_of rmp cp)) * 100)) ∧
    (¬ 0 < previous_close_of pc (current_price_of rmp cp) →
      change_percent_of rmp cp pc = 0) := by
  constructor
  · intro h
    have hne : previous_close_of pc (current_price_of rmp cp) ≠ 0 := ne_of_gt h
    simp [change_percent_of, hne, h]
  · intro h
    have hg : ¬ (previous_close_of pc (current_price_of rmp cp) ≠ 0 ∧
        0 < previous_close_of pc (current_price_of rmp cp)) := fun hc => h hc.2
    have hz : round2 0 = 0 := by norm_num [round2, roundHalfEven]
    simp [change_percent_of, hg, hz]

theorem change_percent_guarded_witness :
    change_percent_of (some 110) none (some 100) =
      round2 (((current_price_of (some 110) none -
          previous_close_of (some 100) (current_price_of (some 110) none)) /
        previous_close_of (some 100) (current_price_of (some 110) none)) * 100) ∧
    change_percent_of (some 110) none (some 0) = 0 :=
  ⟨(change_percent_guarded (some 110) none (some 100)).1 (by decide),
   (change_percent_guarded (some 110) none (some 0)).2 (by decide)⟩

/-! ## Claims about the request handlers -/

/-- What one iteration of the batch fetch loop contributes to `data`:
a `"Failed to fetch"` error entry when the provider raises for that symbol,
the normalized payload marked `cached: false` otherwise. -/
def gms_fetch_entry (provider : Provider) (t : String) : NormData :=
  match provider t with
  | .raise m => ⟨t, some ("Failed to fetch: " ++ m), 0, 0, none, none⟩
  | .ok d => { d with cached := some false }

theorem gms_fetch_one_data (now : Int) (provider : Provider) (tbl : Table NormData)
    (t r i : String) :
    (gms_fetch_one now provider tbl t r i).1 = gms_fetch_entry provider t := by
  cases hp : provider t <;> simp [gms_fetch_one, gms_fetch_entry, hp]

theorem gms_fetch_loop_data (now : Int) (provider : Provider) (r i : String)
    (ts : List String) (tbl : Table NormData) :
    (gms_fetch_loop now provider r i ts tbl).1 = ts.map (gms_fetch_entry provider) := by
  induction ts generalizing tbl with
  | nil => rfl
  | cons t rest ih => simp [gms_fetch_loop, gms_fetch_one_data, ih]

/-- What one iteration of the indices fetch loop contributes to `data`. -/
def idx_fetch_entry (provider : Provider) (t : String) : NormData :=
  match provider t with
  | .raise m => ⟨t, some ("Failed to fetch: " ++ m), 0, 0, some "index", none⟩
  | .ok d => { d with cached := some false, asset_type := some "index" }

theorem idx_fetch_one_data (now : Int) (provider : Provider) (tbl : Table NormData)
    (t r i : String) :
    (idx_fetch_one now provider tbl t r i).1 = idx_fetch_entry provider t := by
  cases hp : provider t <;> simp [idx_fetch_one, idx_fetch_entry, hp]

theorem idx_fetch_loop_data (now : Int) (provider : Provider) (r i : String)
    (ts : List String) (tbl : Table NormData) :
    (idx_fetch_loop now provider r i ts tbl).1 = ts.map (idx_fetch_entry provider) := by
  induction ts generalizing tbl with
  | nil => rfl
  | cons t rest ih => simp [idx_fetch_loop, idx_fetch_one_data, ih]

/-- C8: when validation of a batch request fails (e.g. one bad symbol), the
batch handler returns an overall 400 with an untouched table and an empty
effect trace (no cache or provider access); when validation passes, both
the batch handler and the indices handler answer 200, and the fetched part
of `data` is a per-item map over the missed symbols: a symbol whose fetch
raises contributes its own error entry while every other symbol contributes
its normalized payload. -/
theorem batch_validation_short_circuit_and_fetch_isolation
    (now : Int) (provider : Provider) (tbl : Table NormData) :
    (∀ body : GmsBody, (validate_request body).1 = false →
      gms_handler now provider body tbl =
        (⟨400, some (validate_request body).2, [], 0, 0, 0⟩, tbl, [])) ∧
    (∀ body : GmsBody, (validate_request body).1 = true →
      (gms_handler now provider body tbl).1.statusCode = 200 ∧
      (gms_handler now provider body tbl).1.data =
        (gms_cache_loop now (body.range.getD "1d") (body.interval.getD "1d")
            (gms_ticker_list body.tickers) tbl).results ++
          ((gms_cache_loop now (body.range.getD "1d") (body.interval.getD "1d")
            (gms_ticker_list body.tickers) tbl).to_fetch).map
            (gms_fetch_entry provider)) ∧
    (∀ (body : IdxBody) (l : List String), idx_validate_request body.indices = .ok l →
      (idx_handler now provider body tbl).1.statusCode = 200 ∧
      (idx_handler now provider body tbl).1.data =
        (idx_cache_loop now (body.range.getD "1d") (body.interval.getD "1d") l tbl).results ++
          ((idx_cache_loop now (body.range.getD "1d") (body.interval.getD "1d")
            l tbl).to_fetch).map (idx_fetch_entry provider)) := by
  refine ⟨?_, ?_, ?_⟩
  · intro body h
    simp [gms_handler, h]
  · intro body h
    refine ⟨?_, ?_⟩ <;> simp [gms_handler, h, gms_fetch_loop_data]
  · intro body l h
    refine ⟨?_, ?_⟩ <;> simp [idx_handler, h, idx_fetch_loop_data]

/-- A concrete provider for witnesses: fetching `"MSFT"` raises, fetching
anything else yields a plain normalized payload. -/
def demo_provider : Provider := fun t =>
  if t == "MSFT" then .raise "boom" else .ok ⟨t, none, 1, 0, none, none⟩

theorem batch_validation_short_circuit_and_fetch_isolation_witness :
    gms_handler 0 demo_provider ⟨.list ["AAPL", "???"], none, none⟩ [] =
      (⟨400, some (validate_request ⟨.list ["AAPL", "???"], none, none⟩).2,
        [], 0, 0, 0⟩, [], []) ∧
    ((gms_handler 0 demo_provider ⟨.list ["AAPL", "MSFT"], none, none⟩ []).1.statusCode
        = 200 ∧
     (gms_handler 0 demo_provider ⟨.list ["AAPL", "MSFT"], none, none⟩ []).1.data =
       (gms_cache_loop 0 "1d" "1d" (gms_ticker_list (.list ["AAPL", "MSFT"])) []).results ++
         ((gms_cache_loop 0 "1d" "1d" (gms_ticker_list (.list ["AAPL", "MSFT"]))
           []).to_fetch).map (gms_fetch_entry demo_provider)) ∧
    ((idx_handler 0 demo_provider ⟨.list ["SP500"], none, none⟩ []).1.statusCode = 200 ∧
     (idx_handler 0 demo_provider ⟨.list ["SP500"], none, none⟩ []).1.data =
       (idx_cache_loop 0 "1d" "1d" ["^GSPC"] []).results ++
         ((idx_cache_loop 0 "1d" "1d" ["^GSPC"] []).to_fetch).map
           (idx_fetch_entry demo_provider)) :=
  ⟨(batch_validation_short_circuit_and_fetch_isolation 0 demo_provider []).1
     ⟨.list ["AAPL", "???"], none, none⟩ (by decide),
   (batch_validation_short_circuit_and_fetch_isolation 0 demo_provider []).2.1
     ⟨.list ["AAPL", "MSFT"], none, none⟩ (by decide),
   (batch_validation_short_circuit_and_fetch_isolation 0 demo_provider []).2.2
     ⟨.list ["SP500"], none, none⟩ ["^GSPC"] rfl⟩

/-- C9: a batch request whose ticker list holds more than 50 entries is
rejected by `validate_request` with the message
`"Maximum 50 tickers per request"`, and the handler answers 400 with an
untouched table and an empty effect trace; a request of at most 50 valid
tickers passes the gate. -/
theorem batch_max_50_gate (now : Int) (provider : Provider) (tbl : Table NormData)
    (body : GmsBody) (l : List String)
    (hfal : tickersFalsy body.tickers = false)
    (hl : ticker_list_of body.tickers = some l) :
    (l.length > 50 →
      validate_request body = (false, "Maximum 50 tickers per request") ∧
      gms_handler now provider body tbl =
        (⟨400, some "Maximum 50 tickers per request", [], 0, 0, 0⟩, tbl, [])) ∧
    (l.length ≤ 50 → (∀ t ∈ l, validate_ticker_symbol t = true) →
      validate_request body = (true, "")) := by
  constructor
  · intro hlen
    have hv : validate_request body = (false, "Maximum 50 tickers per request") := by
      simp [validate_request, hfal, hl, hlen]
    refine ⟨hv, ?_⟩
    simp [gms_handler, hv]
  · intro hlen hall
    have hfind : List.find? (fun t => !(validate_ticker_symbol t)) l = none := by
      rw [List.find?_eq_none]
      intro t ht
      simp [hall t ht]
    simp [validate_request, hfal, hl, Nat.not_lt.mpr hlen, hfind]

theorem batch_max_50_gate_witness :
    validate_request ⟨.list (List.replicate 51 "AAPL"), none, none⟩ =
      (false, "Maximum 50 tickers per request") ∧
    validate_request ⟨.list ["AAPL"], none, none⟩ = (true, "") :=
  ⟨((batch_max_50_gate 0 demo_provider [] ⟨.list (List.replicate 51 "AAPL"), none, none⟩
      (List.replicate 51 "AAPL") (by decide) rfl).1 (by decide)).1,
   (batch_max_50_gate 0 demo_provider [] ⟨.list ["AAPL"], none, none⟩ ["AAPL"]
      (by decide) rfl).2 (by decide) (by decide)⟩

/-- C10: the batch fetch step writes every freshly fetched normalized
payload to the cache under the derived key of the ticker, marked `cached: false`
— in particular error-variant payloads carrying an `error` key — whereas
the single-stock handler answers 404 on an error-variant payload without
writing it, leaving the cache exactly as it was. -/
theorem batch_caches_error_variant_single_stock_does_not
    (now : Int) (provider : Provider) (tbl : Table NormData)
    (t r i : String) (d : NormData) :
    (provider t = .ok d →
      (gms_fetch_one now provider tbl t r i).1 = { d with cached := some false } ∧
      selectById (gms_fetch_one now provider tbl t r i).2.1 (get_cache_key t r i) =
        some ⟨get_cache_key t r i, { d with cached := some false },
          now + get_cache_duration t⟩) ∧
    (∀ body : GsBody, (gs_validate_request body).1 = true →
      pyUpper (body.ticker.getD "") = t →
      selectById tbl
        (get_cache_key t (body.range.getD "1mo") (body.interval.getD "1d")) = none →
      provider t = .ok d → d.error.isSome = true →
      gs_handler now provider body tbl =
        (⟨404, none, some d⟩, tbl,
         [.cacheRead (get_cache_key t (body.range.getD "1mo") (body.interval.getD "1d")),
          .providerFetch t])) := by
  constructor
  · intro hp
    refine ⟨?_, ?_⟩ <;>
      simp [gms_fetch_one, hp, set_cached_data, selectById_upsertById]
  · intro body hv ht hsel hp herr
    simp [gs_handler, hv, ht, get_cached_data, hsel, hp, herr]

/-- An error-variant normalized payload, as the error response of the normalizer
produces it. -/
def demo_error_payload : NormData := ⟨"AAPL", some "No data found", 0, 0, none, none⟩

/-- A provider whose normalization always yields the error variant. -/
def demo_err_provider : Provider := fun _ => .ok demo_error_payload

theorem batch_caches_error_variant_single_stock_does_not_witness :
    ((gms_fetch_one 0 demo_err_provider [] "AAPL" "1d" "1d").1 =
       { demo_error_payload with cached := some false } ∧
     selectById (gms_fetch_one 0 demo_err_provider [] "AAPL" "1d" "1d").2.1
       (get_cache_key "AAPL" "1d" "1d") =
       some ⟨get_cache_key "AAPL" "1d" "1d",
         { demo_error_payload with cached := some false },
         0 + get_cache_duration "AAPL"⟩) ∧
    gs_handler 0 demo_err_provider ⟨some "aapl", none, none⟩ [] =
      (⟨404, none, some demo_error_payload⟩, [],
       [.cacheRead (get_cache_key "AAPL" "1mo" "1d"), .providerFetch "AAPL"]) :=
  ⟨(batch_caches_error_variant_single_stock_does_not 0 demo_err_provider []
      "AAPL" "1d" "1d" demo_error_payload).1 rfl,
   (batch_caches_error_variant_single_stock_does_not 0 demo_err_provider []
      "AAPL" "1mo" "1d" demo_error_payload).2
     ⟨some "aapl", none, none⟩ (by decide) (by decide) rfl rfl rfl⟩
